import Mathlib

/-!
Shallow embedding of the `frontapp-mcp-server` repository: the Front API
client in `src/front-client.ts` and the `getConversations` MCP tool handler
in `build/index.js`, with proofs of the specification's testable properties.

Modelling conventions: JavaScript strings are Lean `String`s; optional
fields are `Option`s with JavaScript truthiness made explicit; promises
that may reject are `Except String`; the network is an explicit function
parameter; an object the source mutates in place is threaded as an explicit
before/after value.
-/

/-- Conversation status, the TypeScript union
`'open' | 'archived' | 'deleted' | 'spam'`. -/
inductive ConversationStatus where
  | «open»
  | archived
  | deleted
  | spam
  deriving DecidableEq, Repr

/-- The wire string of a conversation status. -/
def ConversationStatus.toStr : ConversationStatus → String
  | .«open» => "open"
  | .archived => "archived"
  | .deleted => "deleted"
  | .spam => "spam"

/-- JavaScript truthiness of an optional string: `undefined` and `""` are falsy. -/
def strTruthy : Option String → Bool
  | none => false
  | some s => !s.isEmpty

/-- JavaScript truthiness of an optional number (integral here): `undefined` and `0` are falsy. -/
def numTruthy : Option Int → Bool
  | none => false
  | some n => n != 0

/-- JavaScript truthiness of an optional boolean: only `true` is truthy. -/
def boolTruthy : Option Bool → Bool
  | none => false
  | some b => b

/-- JavaScript `a || b` for an optional string `a` and a string `b`. -/
def strOr (a : Option String) (b : String) : String :=
  match a with
  | some s => if s.isEmpty then b else s
  | none => b

/-- The filter object accepted by `listInboxConversations` and
`listInboxMessages`.  In the source these are two anonymous structural
types; `onlyUnresolved` is carried by the same caller object and is read
only by `listInboxMessages`. -/
structure ConversationQuery where
  q : Option String := none
  page_token : Option String := none
  limit : Option Int := none
  start : Option String := none
  «end» : Option String := none
  status : Option ConversationStatus := none
  onlyUnresolved : Option Bool := none
  deriving DecidableEq, Repr

/-- Model of `URLSearchParams.append`: a search-parameter list is an
ordered list of name/value pairs and `append` adds one at the end. -/
def paramsAppend (sp : List (String × String)) (k v : String) : List (String × String) :=
  sp ++ [(k, v)]

/-- Helper for `paramsSet`: drop every pair named `k`. -/
def paramsDelete (sp : List (String × String)) (k : String) : List (String × String) :=
  sp.filter (fun kv => kv.1 != k)

/-- Model of `URLSearchParams.set`: replace the value of the first pair
named `k` in place and drop later pairs named `k`; append when absent. -/
def paramsSet : List (String × String) → String → String → List (String × String)
  | [], k, v => [(k, v)]
  | kv :: rest, k, v =>
      if kv.1 = k then (k, v) :: paramsDelete rest k
      else kv :: paramsSet rest k v

/-- Whether byte `n` is serialized verbatim by
`application/x-www-form-urlencoded` encoding (ASCII alphanumerics and
`*`, `-`, `.`, `_`). -/
def formUnreserved (n : Nat) : Bool :=
  (48 ≤ n && n ≤ 57) || (65 ≤ n && n ≤ 90) || (97 ≤ n && n ≤ 122) ||
    n == 42 || n == 45 || n == 46 || n == 95

/-- Upper-case hexadecimal digit for `n < 16`. -/
def hexDigit (n : Nat) : Char :=
  if n < 10 then Char.ofNat (48 + n) else Char.ofNat (55 + n)

/-- UTF-8 bytes of one character, as natural numbers. -/
def charUtf8Bytes (c : Char) : List Nat :=
  let n := c.toNat
  if n < 128 then [n]
  else if n < 2048 then [192 + n / 64, 128 + n % 64]
  else if n < 65536 then [224 + n / 4096, 128 + n / 64 % 64, 128 + n % 64]
  else [240 + n / 262144, 128 + n / 4096 % 64, 128 + n / 64 % 64, 128 + n % 64]

/-- Encoding of one byte under `application/x-www-form-urlencoded`:
unreserved bytes stand for themselves, space becomes `+`, anything else
becomes `%XX` with upper-case hex. -/
def formEncodeByte (n : Nat) : String :=
  if formUnreserved n then String.singleton (Char.ofNat n)
  else if n == 32 then "+"
  else "%" ++ String.singleton (hexDigit (n / 16 % 16)) ++ String.singleton (hexDigit (n % 16))

/-- Form-urlencode a string, byte by byte over its UTF-8 encoding. -/
def formEncode (s : String) : String :=
  String.join ((s.data.flatMap charUtf8Bytes).map formEncodeByte)

/-- Model of `URLSearchParams.toString`. -/
def paramsToString (sp : List (String × String)) : String :=
  String.intercalate "&" (sp.map (fun kv => formEncode kv.1 ++ "=" ++ formEncode kv.2))

/-- Query-parameter list built by `FrontClient.listInboxConversations`:
append `q`, `page_token`, `limit`, `start`, `end` when truthy; then, when a
status is present, fold it into `q` as the fragment `status:"<value>"`,
joined to a truthy existing `q` with `" AND "` via `URLSearchParams.set`,
or appended as the sole `q` value otherwise. -/
def buildConversationQueryParams (params : ConversationQuery) : List (String × String) :=
  let queryParams : List (String × String) := []
  let queryParams :=
    if strTruthy params.q then paramsAppend queryParams "q" (params.q.getD "") else queryParams
  let queryParams :=
    if strTruthy params.page_token then
      paramsAppend queryParams "page_token" (params.page_token.getD "")
    else queryParams
  let queryParams :=
    if numTruthy params.limit then
      paramsAppend queryParams "limit" (toString (params.limit.getD 0))
    else queryParams
  let queryParams :=
    if strTruthy params.start then paramsAppend queryParams "start" (params.start.getD "")
    else queryParams
  let queryParams :=
    if strTruthy params.«end» then paramsAppend queryParams "end" (params.«end».getD "")
    else queryParams
  match params.status with
  | some status =>
      let statusQuery := "status:\"" ++ status.toStr ++ "\""
      if strTruthy params.q then
        paramsSet queryParams "q" (params.q.getD "" ++ " AND " ++ statusQuery)
      else
        paramsAppend queryParams "q" statusQuery
  | none => queryParams

/-- Request path built by `FrontClient.listInboxConversations`: the inbox
conversations route plus the composed query string when non-empty. -/
def listInboxConversationsPath (inboxId : String) (params : ConversationQuery) : String :=
  let queryString := paramsToString (buildConversationQueryParams params)
  "/inboxes/" ++ inboxId ++ "/conversations" ++
    (if queryString.isEmpty then "" else "?" ++ queryString)

/-- Request path built by `FrontClient.listConversationMessages`. -/
def listConversationMessagesPath (conversationId : String) : String :=
  "/conversations/" ++ conversationId ++ "/messages"

/-- JSON values; numbers are restricted to integers, which covers every
payload this client manipulates. -/
inductive Json where
  | null
  | bool (b : Bool)
  | num (n : Int)
  | str (s : String)
  | arr (items : List Json)
  | obj (fields : List (String × Json))
  deriving Repr

/-- Escape of one character inside a JSON string literal, as
`JSON.stringify` performs it. -/
def jsonEscapeChar (c : Char) : String :=
  if c = '"' then "\\\""
  else if c = '\\' then "\\\\"
  else if c = '\n' then "\\n"
  else if c = '\r' then "\\r"
  else if c = '\t' then "\\t"
  else if c.toNat = 8 then "\\b"
  else if c.toNat = 12 then "\\f"
  else if c.toNat < 32 then
    "\\u00" ++ String.singleton (hexDigit (c.toNat / 16)) ++ String.singleton (hexDigit (c.toNat % 16))
  else String.singleton c

/-- JSON string literal for `s`, quotes included. -/
def jsonQuote (s : String) : String :=
  "\"" ++ String.join (s.data.map jsonEscapeChar) ++ "\""

mutual

/-- Model of `JSON.stringify`. -/
def Json.stringify : Json → String
  | .null => "null"
  | .bool true => "true"
  | .bool false => "false"
  | .num n => toString n
  | .str s => jsonQuote s
  | .arr items => "[" ++ Json.stringifyItems items ++ "]"
  | .obj fields => "\x7b" ++ Json.stringifyFields fields ++ "\x7d"

/-- Comma-separated serialization of JSON array items. -/
def Json.stringifyItems : List Json → String
  | [] => ""
  | [j] => j.stringify
  | j :: rest => j.stringify ++ "," ++ Json.stringifyItems rest

/-- Comma-separated serialization of JSON object fields. -/
def Json.stringifyFields : List (String × Json) → String
  | [] => ""
  | [kv] => jsonQuote kv.1 ++ ":" ++ kv.2.stringify
  | kv :: rest => jsonQuote kv.1 ++ ":" ++ kv.2.stringify ++ "," ++ Json.stringifyFields rest

end

/-- Options accepted by the `FrontClient` constructor. -/
structure FrontClientOptions where
  token : Option String := none
  baseUrl : Option String := none
  deriving Repr

/-- A constructed client: the token and base URL are `private readonly`
fields in the source, fixed at construction time. -/
structure FrontClient where
  token : String
  baseUrl : String
  deriving DecidableEq, Repr

/-- The `FrontClient` constructor: resolves
`options.token || process.env.FRONT_API_TOKEN || ''` and throws when the
result is empty; the base URL is `options.baseUrl` or the production
endpoint.  `envToken` stands for `process.env.FRONT_API_TOKEN`. -/
def FrontClient.create (options : FrontClientOptions) (envToken : Option String) :
    Except String FrontClient :=
  let token := strOr options.token (strOr envToken "")
  if token.isEmpty then
    Except.error
      "Front API token not provided and not found in environment variable: FRONT_API_TOKEN"
  else
    Except.ok ⟨token, strOr options.baseUrl "https://api2.frontapp.com"⟩

/-- An outgoing HTTP request as assembled by `FrontClient.request`. -/
structure HttpRequest where
  url : String
  method : String
  headers : List (String × String)
  body : Option String
  deriving DecidableEq, Repr

/-- An HTTP response as observed by `FrontClient.request`: the status line
plus the outcome of parsing the body as JSON (`none` when parsing fails). -/
structure HttpResponse where
  status : Nat
  statusText : String
  body : Option Json
  deriving Repr

/-- Model of `fetch`'s `Response.ok`: a status in the 2xx range. -/
def HttpResponse.ok (r : HttpResponse) : Bool :=
  200 ≤ r.status && r.status < 300

/-- JavaScript truthiness of the optional request data (the `data &&`
guard in the source). -/
def jsonTruthy : Option Json → Bool
  | none => false
  | some .null => false
  | some (.bool b) => b
  | some (.num n) => n != 0
  | some (.str s) => !s.isEmpty
  | some (.arr _) => true
  | some (.obj _) => true

/-- Request assembly in `FrontClient.request`: URL is the base URL with
the path appended; headers carry the bearer token and JSON content
negotiation; the body is serialized only for POST/PUT/PATCH with truthy
data. -/
def FrontClient.buildRequest (c : FrontClient) (method path : String) (data : Option Json) :
    HttpRequest :=
  { url := c.baseUrl ++ path
    method := method
    headers := [("Authorization", "Bearer " ++ c.token),
                ("Content-Type", "application/json"),
                ("Accept", "application/json")]
    body :=
      if jsonTruthy data && (method == "POST" || method == "PUT" || method == "PATCH") then
        some ((data.getD Json.null).stringify)
      else none }

/-- The error message thrown by `FrontClient.request` on a non-2xx
response; the error body falls back to `{}` when the response body did not
parse as JSON. -/
def requestErrorMessage (r : HttpResponse) : String :=
  "Front API request failed: " ++ toString r.status ++ " " ++ r.statusText ++ " - " ++
    (r.body.getD (Json.obj [])).stringify

/-- Response handling in `FrontClient.request`: a 2xx response yields the
parsed JSON body (an unparseable success body rejects, as `response.json()`
does); any other status throws `requestErrorMessage`. -/
def handleResponse (r : HttpResponse) : Except String Json :=
  if r.ok then
    match r.body with
    | some j => Except.ok j
    | none => Except.error "invalid json response body"
  else
    Except.error (requestErrorMessage r)

/-- Model of `FrontClient.request`: assemble the request, exchange it over
the supplied network function, handle the response.  Network-level
rejections (DNS, refused connection) propagate outside this model. -/
def FrontClient.request (c : FrontClient) (net : HttpRequest → HttpResponse)
    (method path : String) (data : Option Json) : Except String Json :=
  handleResponse (net (c.buildRequest method path data))

/-- One conversation record, with the fields the client's response type
names (further fields pass through opaquely and are not modelled). -/
structure Conversation where
  id : String
  subject : String := ""
  status : String := ""
  deriving DecidableEq, Repr

/-- One message record, with the fields the client's response type names. -/
structure Message where
  id : String
  type : String := ""
  is_inbound : Bool := false
  created_at : Nat := 0
  blurb : String := ""
  body : String := ""
  text : String := ""
  deriving DecidableEq, Repr

/-- Paginated envelope of conversations; `next` and `self` flatten the
source's `_pagination.next` and `_links.self`. -/
structure ConversationList where
  next : Option String := none
  self : String := ""
  _results : List Conversation
  deriving DecidableEq, Repr

/-- Paginated envelope of messages. -/
structure MessageList where
  next : Option String := none
  self : String := ""
  _results : List Message
  deriving DecidableEq, Repr

/-- Return value of `listInboxMessages`. -/
structure InboxMessagesResult where
  conversations : List Conversation
  messages : List Message
  deriving DecidableEq, Repr

/-- Status override at the top of `listInboxMessages`: write
`params.status = 'open'` when `params.onlyUnresolved` is truthy.  The
source performs this as an in-place mutation of the caller's object. -/
def effectiveMessagesParams (params : ConversationQuery) : ConversationQuery :=
  if boolTruthy params.onlyUnresolved then
    { params with status := some ConversationStatus.«open» }
  else params

/-- Model of `FrontClient.listInboxMessages`.  The typed calls
`listInboxConversations` and `listConversationMessages` are abstracted as
functions of the request paths they issue (their bodies are `request` plus
a compile-time-only TypeScript cast).  `Promise.all` over the
per-conversation fetches is `mapM` in the `Except` monad: it succeeds only
when every fetch succeeds and otherwise surfaces a single failing fetch's
error.  The first component is the operation's outcome; the second is the
caller's params object as left after the call (the source mutates it
before the first `await`, so the write persists even on failure). -/
def listInboxMessages
    (listConvs : String → Except String ConversationList)
    (listMsgs : String → Except String MessageList)
    (inboxId : String) (params : ConversationQuery) :
    Except String InboxMessagesResult × ConversationQuery :=
  let params := effectiveMessagesParams params
  let result : Except String InboxMessagesResult := do
    let conversationsResponse ← listConvs (listInboxConversationsPath inboxId params)
    let messagesResponses ← conversationsResponse._results.mapM
      (fun conversation => listMsgs (listConversationMessagesPath conversation.id))
    Except.ok
      { conversations := conversationsResponse._results
        messages := messagesResponses.flatMap (fun response => response._results) }
  (result, params)

/-- Raw arguments of the `getConversations` MCP tool, before zod
validation. -/
structure GetConversationsArgs where
  inboxId : Option String := none
  limit : Option Int := none
  query : Option String := none
  onlyUnresolved : Option Bool := none
  status : Option ConversationStatus := none
  deriving Repr

/-- The zod rule `z.number().min(1).max(100).default(10)` on `limit`,
checked by the MCP server on the tool's input schema before the handler
runs. -/
def validateLimit : Option Int → Except String Int
  | none => Except.ok 10
  | some n =>
      if n < 1 then Except.error "Number must be greater than or equal to 1"
      else if n > 100 then Except.error "Number must be less than or equal to 100"
      else Except.ok n

/-- Request paths the orchestration issues, in order: the conversation
query first, then — when it succeeded — one message query per returned
conversation (`Promise.all` starts every per-conversation request
regardless of later failures). -/
def listInboxMessagesRequests
    (listConvs : String → Except String ConversationList)
    (inboxId : String) (params : ConversationQuery) : List String :=
  let params := effectiveMessagesParams params
  let convPath := listInboxConversationsPath inboxId params
  match listConvs convPath with
  | Except.error _ => [convPath]
  | Except.ok response =>
      convPath :: response._results.map (fun c => listConversationMessagesPath c.id)

/-- Model of the `getConversations` tool from zod validation through the
handler in `build/index.js`: validate `limit`; require
`FRONT_API_TOKEN`; resolve the inbox id against `DEFAULT_INBOX_ID`;
construct the client; assemble the params object (`q` when the query is
truthy, `onlyUnresolved` when set, otherwise a supplied `status`); call
`listInboxMessages`, wrapping any failure as `Front API error: ...`.
Returns the outcome paired with the list of request paths issued, which is
empty whenever the invocation is rejected before reaching the network. -/
def getConversationsTool (args : GetConversationsArgs)
    (envToken envDefaultInboxId : Option String)
    (listConvs : String → Except String ConversationList)
    (listMsgs : String → Except String MessageList) :
    Except String InboxMessagesResult × List String :=
  match validateLimit args.limit with
  | Except.error e => (Except.error e, [])
  | Except.ok limit =>
      if !strTruthy envToken then
        (Except.error "FRONT_API_TOKEN environment variable is required", [])
      else
        let resolvedInboxId := strOr args.inboxId (strOr envDefaultInboxId "")
        if resolvedInboxId.isEmpty then
          (Except.error
            "inboxId parameter or DEFAULT_INBOX_ID environment variable is required", [])
        else
          match FrontClient.create ⟨some (strOr envToken ""), none⟩ envToken with
          | Except.error e => (Except.error e, [])
          | Except.ok _ =>
              let onlyUnresolved := args.onlyUnresolved.getD false
              let params : ConversationQuery :=
                { limit := some limit
                  q := if strTruthy args.query then args.query else none
                  onlyUnresolved := if onlyUnresolved then some true else none
                  status := if onlyUnresolved then none else args.status }
              let outcome :=
                match (listInboxMessages listConvs listMsgs resolvedInboxId params).fst with
                | Except.ok r => Except.ok r
                | Except.error e => Except.error ("Front API error: " ++ e)
              (outcome, listInboxMessagesRequests listConvs resolvedInboxId params)

/-! Helper lemmas about the `Except` monad and `mapM`, shared by the
orchestration proofs. -/

/-- Bind on a successful `Except` computation reduces to the continuation. -/
theorem except_bind_ok {α β : Type} (a : α) (f : α → Except String β) :
    (Except.ok a >>= f : Except String β) = f a := rfl

/-- Bind on a failed `Except` computation propagates the error. -/
theorem except_bind_error {α β : Type} (e : String) (f : α → Except String β) :
    (Except.error e >>= f : Except String β) = Except.error e := rfl

/-- Mapping an always-successful function over a list in the `Except`
monad succeeds with the pointwise results. -/
theorem exceptMapM_ok_fn {α β : Type} (g : α → β) (l : List α) :
    l.mapM (fun a => (Except.ok (g a) : Except String β)) = Except.ok (l.map g) := by
  induction l with
  | nil => rfl
  | cons a l ih => rw [List.mapM_cons, ih]; rfl

/-- When every element before `c` succeeds and `c` fails with `e`, the
whole `mapM` fails with exactly `e`. -/
theorem exceptMapM_error {α β : Type} (g : α → Except String β) (pre : List α) (c : α)
    (post : List α) (e : String) (h1 : ∀ a ∈ pre, ∃ m, g a = Except.ok m)
    (h2 : g c = Except.error e) :
    (pre ++ c :: post).mapM g = Except.error e := by
  induction pre with
  | nil => rw [List.nil_append, List.mapM_cons, h2]; rfl
  | cons a l ih =>
      obtain ⟨m, hm⟩ := h1 a (List.mem_cons_self a l)
      rw [List.cons_append, List.mapM_cons, hm, except_bind_ok,
        ih (fun x hx => h1 x (List.mem_cons_of_mem a hx))]
      rfl

/-- A successful `mapM` means every element succeeded. -/
theorem exceptMapM_ok_inv {α β : Type} (g : α → Except String β) (l : List α) (bs : List β)
    (h : l.mapM g = Except.ok bs) : ∀ a ∈ l, ∃ m, g a = Except.ok m := by
  induction l generalizing bs with
  | nil => intro a ha; cases ha
  | cons a l ih =>
      intro x hx
      rw [List.mapM_cons] at h
      cases hga : g a with
      | error e => rw [hga, except_bind_error] at h; cases h
      | ok m =>
          rw [hga, except_bind_ok] at h
          cases hl : l.mapM g with
          | error e => rw [hl, except_bind_error] at h; cases h
          | ok ms =>
              rcases List.mem_cons.mp hx with rfl | hx'
              · exact ⟨m, hga⟩
              · exact ih ms hl x hx'

/-- C1: for every call to `listInboxMessages` whose filter has
`onlyUnresolved` set (truthy), the params object used for the downstream
conversation query carries status "open", and the operation's outcome is
the same whatever status the caller supplied. -/
theorem c1_only_unresolved_forces_open (listConvs : String → Except String ConversationList)
    (listMsgs : String → Except String MessageList) (inboxId : String)
    (params : ConversationQuery) (h : boolTruthy params.onlyUnresolved = true) :
    effectiveMessagesParams params = { params with status := some ConversationStatus.«open» } ∧
    ∀ st : Option ConversationStatus,
      (listInboxMessages listConvs listMsgs inboxId { params with status := st }).fst =
        (listInboxMessages listConvs listMsgs inboxId params).fst := by
  constructor
  · simp [effectiveMessagesParams, h]
  · intro st
    simp [listInboxMessages, effectiveMessagesParams, h]

/-- C1 witness: with `onlyUnresolved := some true` and a caller-supplied
status of "archived", the effective status is "open" and the outcome
matches the one for any other supplied status. -/
theorem c1_only_unresolved_forces_open_witness :
    effectiveMessagesParams
        { status := some ConversationStatus.archived, onlyUnresolved := some true } =
      { status := some ConversationStatus.«open», onlyUnresolved := some true } :=
  (c1_only_unresolved_forces_open (fun _ => Except.error "net") (fun _ => Except.error "net")
    "inb_1" { status := some ConversationStatus.archived, onlyUnresolved := some true } rfl).1

/-- C9: `listInboxMessages` leaves the caller's params object, observable
after the call, with status overwritten to "open" exactly when
`onlyUnresolved` is truthy, all other fields untouched; otherwise the
object is unchanged. -/
theorem c9_params_mutation (listConvs : String → Except String ConversationList)
    (listMsgs : String → Except String MessageList) (inboxId : String)
    (params : ConversationQuery) :
    (boolTruthy params.onlyUnresolved = true →
        (listInboxMessages listConvs listMsgs inboxId params).snd =
          { params with status := some ConversationStatus.«open» }) ∧
    (boolTruthy params.onlyUnresolved = false →
        (listInboxMessages listConvs listMsgs inboxId params).snd = params) := by
  constructor <;> intro h <;> simp [listInboxMessages, effectiveMessagesParams, h]

/-- C9 witness: a concrete caller object with a supplied "archived" status
and `onlyUnresolved := some true` comes back with status "open" and every
other field unchanged. -/
theorem c9_params_mutation_witness :
    (listInboxMessages (fun _ => Except.error "net") (fun _ => Except.error "net") "inb_1"
        { q := some "hello", limit := some 7, status := some ConversationStatus.archived,
          onlyUnresolved := some true }).snd =
      { q := some "hello", limit := some 7, status := some ConversationStatus.«open»,
        onlyUnresolved := some true } :=
  (c9_params_mutation (fun _ => Except.error "net") (fun _ => Except.error "net") "inb_1"
    { q := some "hello", limit := some 7, status := some ConversationStatus.archived,
      onlyUnresolved := some true }).1 rfl

/-- C6: an invocation of the `getConversations` tool whose `limit` lies
outside `[1, 100]` is rejected by the input schema before the handler
runs: the outcome is an error and the list of issued request paths is
empty, whatever the network behaviour. -/
theorem c6_limit_out_of_range_rejected (args : GetConversationsArgs)
    (envToken envDefaultInboxId : Option String)
    (listConvs : String → Except String ConversationList)
    (listMsgs : String → Except String MessageList) (n : Int)
    (hn : args.limit = some n) (hout : n < 1 ∨ 100 < n) :
    ∃ e, getConversationsTool args envToken envDefaultInboxId listConvs listMsgs =
      (Except.error e, []) := by
  rcases hout with h | h
  · exact ⟨"Number must be greater than or equal to 1",
      by simp [getConversationsTool, validateLimit, hn, h]⟩
  · have h1 : ¬ n < 1 := by omega
    exact ⟨"Number must be less than or equal to 100",
      by simp [getConversationsTool, validateLimit, hn, h, h1]⟩

/-- C6 witness: the concrete limits 0 and 101 are rejected with no request
issued. -/
theorem c6_limit_out_of_range_rejected_witness :
    (∃ e, getConversationsTool { limit := some 0 } (some "tok") (some "inb_1")
        (fun _ => Except.error "net") (fun _ => Except.error "net") = (Except.error e, [])) ∧
    (∃ e, getConversationsTool { limit := some 101 } (some "tok") (some "inb_1")
        (fun _ => Except.error "net") (fun _ => Except.error "net") = (Except.error e, [])) :=
  ⟨c6_limit_out_of_range_rejected _ _ _ _ _ 0 rfl (Or.inl (by decide)),
   c6_limit_out_of_range_rejected _ _ _ _ _ 101 rfl (Or.inr (by decide))⟩

/-- C8: constructing a client with no truthy token in the options and none
in the environment fails at construction time with the documented error;
with a non-empty token supplied, construction succeeds, the stored token is
the supplied one, and every request the instance ever assembles carries
that same construction-time token (the field is `private readonly` and no
operation rebinds it). -/
theorem c8_token_required_and_immutable :
    (∀ (options : FrontClientOptions) (envToken : Option String),
        strTruthy options.token = false → strTruthy envToken = false →
        FrontClient.create options envToken = Except.error
          "Front API token not provided and not found in environment variable: FRONT_API_TOKEN") ∧
    (∀ (options : FrontClientOptions) (envToken : Option String) (t : String),
        options.token = some t → t.isEmpty = false →
        ∃ cl, FrontClient.create options envToken = Except.ok cl ∧ cl.token = t ∧
          ∀ method path data,
            (cl.buildRequest method path data).headers =
              [("Authorization", "Bearer " ++ t), ("Content-Type", "application/json"),
               ("Accept", "application/json")]) := by
  constructor
  · intro options envToken h1 h2
    obtain ⟨ot, ob⟩ := options
    cases ot with
    | none =>
        cases envToken with
        | none => rfl
        | some s =>
            have hs : s.isEmpty = true := by simpa [strTruthy] using h2
            simp only [FrontClient.create, strOr, hs]
            rfl
    | some s =>
        have hs : s.isEmpty = true := by simpa [strTruthy] using h1
        cases envToken with
        | none =>
            simp only [FrontClient.create, strOr, hs]
            rfl
        | some s2 =>
            have hs2 : s2.isEmpty = true := by simpa [strTruthy] using h2
            simp only [FrontClient.create, strOr, hs, hs2]
            rfl
  · intro options envToken t ht hne
    refine ⟨⟨t, strOr options.baseUrl "https://api2.frontapp.com"⟩, ?_, rfl, ?_⟩
    · simp [FrontClient.create, strOr, ht, hne]
    · intro method path data
      simp [FrontClient.buildRequest]

/-- C8 witness: construction with no token at all fails with the
documented message, and construction with the token "tok" yields a client
whose every request carries `Authorization: Bearer tok`. -/
theorem c8_token_required_and_immutable_witness :
    (FrontClient.create { token := none, baseUrl := none } none = Except.error
      "Front API token not provided and not found in environment variable: FRONT_API_TOKEN") ∧
    (∃ cl, FrontClient.create { token := some "tok", baseUrl := none } none = Except.ok cl ∧
      cl.token = "tok" ∧
      ∀ method path data,
        (cl.buildRequest method path data).headers =
          [("Authorization", "Bearer " ++ "tok"), ("Content-Type", "application/json"),
           ("Accept", "application/json")]) :=
  ⟨c8_token_required_and_immutable.1 { token := none, baseUrl := none } none rfl rfl,
   c8_token_required_and_immutable.2 { token := some "tok", baseUrl := none } none "tok" rfl rfl⟩

/-- C7: a client constructed with an explicit non-empty token and no
base-URL override sends every request with header
`Authorization: Bearer <token>` to a URL that is `https://api2.frontapp.com`
followed by the path — in particular for a conversation list call — and a
non-empty base-URL override replaces that prefix. -/
theorem c7_bearer_header_and_base_url (t : String) (ht : t.isEmpty = false)
    (envToken : Option String) (cl : FrontClient)
    (hcl : FrontClient.create { token := some t, baseUrl := none } envToken = Except.ok cl) :
    (∀ method path data,
        ("Authorization", "Bearer " ++ t) ∈ (cl.buildRequest method path data).headers ∧
        (cl.buildRequest method path data).url = "https://api2.frontapp.com" ++ path) ∧
    (∀ inboxId params,
        (cl.buildRequest "GET" (listInboxConversationsPath inboxId params) none).url =
          "https://api2.frontapp.com" ++ listInboxConversationsPath inboxId params) ∧
    (∀ b, b.isEmpty = false → ∀ cl2,
        FrontClient.create { token := some t, baseUrl := some b } envToken = Except.ok cl2 →
        ∀ method path data, (cl2.buildRequest method path data).url = b ++ path) := by
  have hcl' : cl = ⟨t, "https://api2.frontapp.com"⟩ := by
    simp [FrontClient.create, strOr, ht] at hcl
    exact hcl.symm
  subst hcl'
  refine ⟨?_, ?_, ?_⟩
  · intro method path data
    exact ⟨List.mem_cons_self _ _, rfl⟩
  · intro inboxId params
    rfl
  · intro b hb cl2 hcl2 method path data
    have hcl2' : cl2 = ⟨t, b⟩ := by
      simp [FrontClient.create, strOr, ht, hb] at hcl2
      exact hcl2.symm
    subst hcl2'
    rfl

/-- C7 witness: the concrete client built from token "tok" and the default
base URL issues its conversation list call for inbox "inb_1" with the
bearer header and the production URL prefix. -/
theorem c7_bearer_header_and_base_url_witness :
    ("Authorization", "Bearer " ++ "tok") ∈
      ((⟨"tok", "https://api2.frontapp.com"⟩ : FrontClient).buildRequest "GET"
        (listInboxConversationsPath "inb_1" {}) none).headers ∧
    ((⟨"tok", "https://api2.frontapp.com"⟩ : FrontClient).buildRequest "GET"
        (listInboxConversationsPath "inb_1" {}) none).url =
      "https://api2.frontapp.com" ++ listInboxConversationsPath "inb_1" {} :=
  (c7_bearer_header_and_base_url "tok" rfl none ⟨"tok", "https://api2.frontapp.com"⟩ rfl).1
    "GET" (listInboxConversationsPath "inb_1" {}) none

/-- C3: when the conversation query returns a page (possibly empty) and
every per-conversation message fetch succeeds, `listInboxMessages` returns
those conversations together with the concatenation of the per-conversation
message arrays, in conversation-page order with each array's internal order
preserved. -/
theorem c3_messages_flattened_in_order (inboxId : String) (params : ConversationQuery)
    (page : ConversationList) (msgs : String → MessageList) :
    (listInboxMessages (fun _ => Except.ok page)
        (fun path => Except.ok (msgs path)) inboxId params).fst =
      Except.ok
        { conversations := page._results
          messages := (page._results.map
            (fun c => (msgs (listConversationMessagesPath c.id))._results)).flatten } := by
  have hmap := exceptMapM_ok_fn
    (fun c : Conversation => msgs (listConversationMessagesPath c.id)) page._results
  simp only [listInboxMessages]
  rw [except_bind_ok, hmap, except_bind_ok]
  exact congrArg
    (fun ms : List (List Message) =>
      (Except.ok { conversations := page._results, messages := ms.flatten } :
        Except String InboxMessagesResult))
    (List.map_map _ _ _)

/-- C4: the orchestration is all-or-nothing.  First conjunct: a failing
conversation query fails the whole call with that error.  Second conjunct:
if one per-conversation message fetch fails while those before it succeed,
the whole call fails with that fetch's error and returns nothing partial.
Third conjunct: a successful call implies the conversation query and every
per-conversation message fetch succeeded. -/
theorem c4_all_or_nothing :
    (∀ (inboxId : String) (params : ConversationQuery) (e : String)
        (listMsgs : String → Except String MessageList),
        (listInboxMessages (fun _ => Except.error e) listMsgs inboxId params).fst =
          Except.error e) ∧
    (∀ (inboxId : String) (params : ConversationQuery) (page : ConversationList)
        (listMsgs : String → Except String MessageList)
        (pre post : List Conversation) (c : Conversation) (e : String),
        page._results = pre ++ c :: post →
        (∀ a ∈ pre, ∃ m, listMsgs (listConversationMessagesPath a.id) = Except.ok m) →
        listMsgs (listConversationMessagesPath c.id) = Except.error e →
        (listInboxMessages (fun _ => Except.ok page) listMsgs inboxId params).fst =
          Except.error e) ∧
    (∀ (inboxId : String) (params : ConversationQuery)
        (listConvs : String → Except String ConversationList)
        (listMsgs : String → Except String MessageList) (r : InboxMessagesResult),
        (listInboxMessages listConvs listMsgs inboxId params).fst = Except.ok r →
        ∃ page, listConvs (listInboxConversationsPath inboxId
            (effectiveMessagesParams params)) = Except.ok page ∧
          (∀ a ∈ page._results, ∃ m,
            listMsgs (listConversationMessagesPath a.id) = Except.ok m) ∧
          r.conversations = page._results) := by
  refine ⟨?_, ?_, ?_⟩
  · intro inboxId params e listMsgs
    simp [listInboxMessages, except_bind_error]
  · intro inboxId params page listMsgs pre post c e hsplit hpre hc
    have hmap : page._results.mapM
        (fun conversation => listMsgs (listConversationMessagesPath conversation.id)) =
        Except.error e := by
      rw [hsplit]
      exact exceptMapM_error _ pre c post e hpre hc
    simp only [listInboxMessages]
    rw [except_bind_ok, hmap, except_bind_error]
  · intro inboxId params listConvs listMsgs r h
    simp only [listInboxMessages] at h
    cases hconv : listConvs (listInboxConversationsPath inboxId
        (effectiveMessagesParams params)) with
    | error e => rw [hconv, except_bind_error] at h; cases h
    | ok page =>
        rw [hconv, except_bind_ok] at h
        cases hmap : page._results.mapM
            (fun conversation => listMsgs (listConversationMessagesPath conversation.id)) with
        | error e => rw [hmap, except_bind_error] at h; cases h
        | ok ms =>
            rw [hmap, except_bind_ok] at h
            refine ⟨page, rfl, exceptMapM_ok_inv _ _ _ hmap, ?_⟩
            cases h
            rfl

/-- C4 witness: with conversations c1, c2, c3 where only the fetch for c2
fails, the whole call fails with exactly c2's error; and a failing
conversation query fails the call with its error. -/
theorem c4_all_or_nothing_witness :
    (listInboxMessages
        (fun _ => Except.ok { _results := [⟨"c1", "", ""⟩, ⟨"c2", "", ""⟩, ⟨"c3", "", ""⟩] })
        (fun path => if path = "/conversations/c2/messages" then Except.error "boom"
          else Except.ok { _results := [] })
        "inb_1" {}).fst = Except.error "boom" ∧
    (listInboxMessages (fun _ => Except.error "conv down")
        (fun _ => Except.ok { _results := [] }) "inb_1" {}).fst = Except.error "conv down" :=
  ⟨c4_all_or_nothing.2.1 "inb_1" {}
      { _results := [⟨"c1", "", ""⟩, ⟨"c2", "", ""⟩, ⟨"c3", "", ""⟩] }
      (fun path => if path = "/conversations/c2/messages" then Except.error "boom"
        else Except.ok { _results := [] })
      [⟨"c1", "", ""⟩] [⟨"c3", "", ""⟩] ⟨"c2", "", ""⟩ "boom" rfl
      (by intro a ha
          simp only [List.mem_singleton] at ha
          subst ha
          exact ⟨{ _results := [] }, rfl⟩)
      rfl,
   c4_all_or_nothing.1 "inb_1" {} "conv down" (fun _ => Except.ok { _results := [] })⟩

/-- C5: for every exchange performed by `FrontClient.request`, a non-2xx
response yields an error equal to the documented message, whose text
contains the numeric status code, the status text, and the JSON-serialized
error body; an unparseable error body is replaced by the empty object; a
2xx response yields the parsed JSON body. -/
theorem c5_transport_error_translation (c : FrontClient) (net : HttpRequest → HttpResponse)
    (method path : String) (data : Option Json) (r : HttpResponse)
    (hr : net (c.buildRequest method path data) = r) :
    (r.ok = false →
        FrontClient.request c net method path data = Except.error (requestErrorMessage r) ∧
        (toString r.status).data <:+: (requestErrorMessage r).data ∧
        r.statusText.data <:+: (requestErrorMessage r).data ∧
        ((r.body.getD (Json.obj [])).stringify).data <:+: (requestErrorMessage r).data ∧
        (r.body = none →
          requestErrorMessage r =
            requestErrorMessage { r with body := some (Json.obj []) })) ∧
    (∀ j, r.ok = true → r.body = some j →
        FrontClient.request c net method path data = Except.ok j) := by
  constructor
  · intro hok
    refine ⟨?_, ?_, ?_, ?_, ?_⟩
    · simp [FrontClient.request, hr, handleResponse, hok]
    · exact ⟨"Front API request failed: ".data,
        (" " ++ r.statusText ++ " - " ++ (r.body.getD (Json.obj [])).stringify).data,
        by simp [requestErrorMessage, String.data_append, List.append_assoc]⟩
    · exact ⟨("Front API request failed: " ++ toString r.status ++ " ").data,
        (" - " ++ (r.body.getD (Json.obj [])).stringify).data,
        by simp [requestErrorMessage, String.data_append, List.append_assoc]⟩
    · exact ⟨("Front API request failed: " ++ toString r.status ++ " " ++
          r.statusText ++ " - ").data, [],
        by simp [requestErrorMessage, String.data_append, List.append_assoc]⟩
    · intro hb
      simp [requestErrorMessage, hb]
  · intro j hok hb
    simp [FrontClient.request, hr, handleResponse, hok, hb]

/-- C5 witness: a 404 response with body `\x7b"message":"not found"\x7d`
yields exactly the documented error string, which contains `404`, the
status text `Not Found`, and the substring `not found`. -/
theorem c5_transport_error_translation_witness :
    FrontClient.request ⟨"tok", "https://api2.frontapp.com"⟩
        (fun _ => ⟨404, "Not Found", some (Json.obj [("message", Json.str "not found")])⟩)
        "GET" "/conversations/c1/messages" none =
      Except.error (requestErrorMessage
        ⟨404, "Not Found", some (Json.obj [("message", Json.str "not found")])⟩) ∧
    requestErrorMessage ⟨404, "Not Found", some (Json.obj [("message", Json.str "not found")])⟩ =
      "Front API request failed: 404 Not Found - \x7b\"message\":\"not found\"\x7d" ∧
    "404".data <:+: (requestErrorMessage
      ⟨404, "Not Found", some (Json.obj [("message", Json.str "not found")])⟩).data ∧
    "Not Found".data <:+: (requestErrorMessage
      ⟨404, "Not Found", some (Json.obj [("message", Json.str "not found")])⟩).data ∧
    "not found".data <:+: (requestErrorMessage
      ⟨404, "Not Found", some (Json.obj [("message", Json.str "not found")])⟩).data := by
  refine ⟨((c5_transport_error_translation ⟨"tok", "https://api2.frontapp.com"⟩
      (fun _ => ⟨404, "Not Found", some (Json.obj [("message", Json.str "not found")])⟩)
      "GET" "/conversations/c1/messages" none
      ⟨404, "Not Found", some (Json.obj [("message", Json.str "not found")])⟩ rfl).1
      (by decide)).1, ?_, ?_, ?_, ?_⟩ <;> decide

/-- C2: in the query built by `listInboxConversations`, with a truthy
free-text query and a status, the single `q` parameter is the free text
joined to `status:"<status>"` by `" AND "`, and `status` is never a
parameter of its own; with only a status, `q` is exactly the status
fragment; with only a free-text query, `q` is the text unchanged. -/
theorem c2_q_parameter_composition (params : ConversationQuery) :
    (∀ s st, params.q = some s → s.isEmpty = false → params.status = some st →
        (buildConversationQueryParams params).filter (fun kv => kv.1 == "q") =
          [("q", s ++ " AND " ++ ("status:\"" ++ st.toStr ++ "\""))] ∧
        (buildConversationQueryParams params).filter (fun kv => kv.1 == "status") = []) ∧
    (∀ st, strTruthy params.q = false → params.status = some st →
        (buildConversationQueryParams params).filter (fun kv => kv.1 == "q") =
          [("q", "status:\"" ++ st.toStr ++ "\"")] ∧
        (buildConversationQueryParams params).filter (fun kv => kv.1 == "status") = []) ∧
    (∀ s, params.q = some s → s.isEmpty = false → params.status = none →
        (buildConversationQueryParams params).filter (fun kv => kv.1 == "q") = [("q", s)]) := by
  obtain ⟨q, pt, lim, st0, en, stt, ou⟩ := params
  refine ⟨?_, ?_, ?_⟩
  · intro s st hq hs hst
    subst hq
    subst hst
    constructor <;>
      (simp only [buildConversationQueryParams, strTruthy, hs, Bool.not_false, if_true]
       split_ifs <;> simp [paramsAppend, paramsSet, paramsDelete])
  · intro st hq hst
    subst hst
    constructor <;>
      (simp only [buildConversationQueryParams, hq, Bool.false_eq_true, if_false]
       split_ifs <;> simp [paramsAppend, paramsSet, paramsDelete])
  · intro s hq hs hst
    subst hq
    subst hst
    simp only [buildConversationQueryParams, strTruthy, hs, Bool.not_false, if_true]
    split_ifs <;> simp [paramsAppend, paramsSet, paramsDelete]

/-- C2 witness: concrete instances of the three cases — query plus status,
status only, query only. -/
theorem c2_q_parameter_composition_witness :
    ((buildConversationQueryParams
        { q := some "hello", page_token := some "pt", limit := some 5,
          status := some ConversationStatus.archived }).filter (fun kv => kv.1 == "q") =
      [("q", "hello" ++ " AND " ++ ("status:\"" ++ ConversationStatus.archived.toStr ++ "\""))] ∧
     (buildConversationQueryParams
        { q := some "hello", page_token := some "pt", limit := some 5,
          status := some ConversationStatus.archived }).filter (fun kv => kv.1 == "status") = []) ∧
    ((buildConversationQueryParams
        { status := some ConversationStatus.«open» }).filter (fun kv => kv.1 == "q") =
      [("q", "status:\"" ++ ConversationStatus.«open».toStr ++ "\"")] ∧
     (buildConversationQueryParams
        { status := some ConversationStatus.«open» }).filter (fun kv => kv.1 == "status") = []) ∧
    (buildConversationQueryParams { q := some "hello" }).filter (fun kv => kv.1 == "q") =
      [("q", "hello")] :=
  ⟨(c2_q_parameter_composition
      { q := some "hello", page_token := some "pt", limit := some 5,
        status := some ConversationStatus.archived }).1 "hello"
      ConversationStatus.archived rfl rfl rfl,
   (c2_q_parameter_composition { status := some ConversationStatus.«open» }).2.1
      ConversationStatus.«open» rfl rfl,
   (c2_q_parameter_composition { q := some "hello" }).2.2 "hello" rfl rfl rfl⟩

/-- C10: a falsy filter field — `limit = 0` or an empty string for `q`,
`page_token`, `start` or `end` — contributes no query parameter: the
parameter list and the request path are the ones produced with the field
absent.  Nothing rejects such values; `buildConversationQueryParams` and
`listInboxConversationsPath` are total. -/
theorem c10_falsy_fields_contribute_nothing (inboxId : String) (params : ConversationQuery) :
    (buildConversationQueryParams { params with q := some "" } =
        buildConversationQueryParams { params with q := none } ∧
      listInboxConversationsPath inboxId { params with q := some "" } =
        listInboxConversationsPath inboxId { params with q := none }) ∧
    (buildConversationQueryParams { params with page_token := some "" } =
        buildConversationQueryParams { params with page_token := none } ∧
      listInboxConversationsPath inboxId { params with page_token := some "" } =
        listInboxConversationsPath inboxId { params with page_token := none }) ∧
    (buildConversationQueryParams { params with limit := some 0 } =
        buildConversationQueryParams { params with limit := none } ∧
      listInboxConversationsPath inboxId { params with limit := some 0 } =
        listInboxConversationsPath inboxId { params with limit := none }) ∧
    (buildConversationQueryParams { params with start := some "" } =
        buildConversationQueryParams { params with start := none } ∧
      listInboxConversationsPath inboxId { params with start := some "" } =
        listInboxConversationsPath inboxId { params with start := none }) ∧
    (buildConversationQueryParams { params with «end» := some "" } =
        buildConversationQueryParams { params with «end» := none } ∧
      listInboxConversationsPath inboxId { params with «end» := some "" } =
        listInboxConversationsPath inboxId { params with «end» := none }) := by
  have hs : strTruthy (some "") = false := rfl
  have hn : numTruthy (some 0) = false := rfl
  have hs0 : strTruthy none = false := rfl
  have hn0 : numTruthy none = false := rfl
  have hq : buildConversationQueryParams { params with q := some "" } =
      buildConversationQueryParams { params with q := none } := by
    simp [buildConversationQueryParams, hs, hs0]
  have hpt : buildConversationQueryParams { params with page_token := some "" } =
      buildConversationQueryParams { params with page_token := none } := by
    simp [buildConversationQueryParams, hs, hs0]
  have hlim : buildConversationQueryParams { params with limit := some 0 } =
      buildConversationQueryParams { params with limit := none } := by
    simp [buildConversationQueryParams, hn, hn0]
  have hst : buildConversationQueryParams { params with start := some "" } =
      buildConversationQueryParams { params with start := none } := by
    simp [buildConversationQueryParams, hs, hs0]
  have hen : buildConversationQueryParams { params with «end» := some "" } =
      buildConversationQueryParams { params with «end» := none } := by
    simp [buildConversationQueryParams, hs, hs0]
  exact ⟨⟨hq, by simp [listInboxConversationsPath, hq]⟩,
    ⟨hpt, by simp [listInboxConversationsPath, hpt]⟩,
    ⟨hlim, by simp [listInboxConversationsPath, hlim]⟩,
    ⟨hst, by simp [listInboxConversationsPath, hst]⟩,
    ⟨hen, by simp [listInboxConversationsPath, hen]⟩⟩
